import Mathlib

/-!
Verification of the virtio-GPU display/cursor control path
(`kernel/comps/virtio/src/device/gpu/`): wire message types (`cursor.rs`),
the transaction engine and device façade (`device.rs`).

The sibling modules `header.rs`, `config.rs`, `control.rs` and the crate-level
`VirtioDeviceError` type are not part of the provided sources; the definitions
below that stand in for them are modelled from the specification and carry a
doc comment saying so.  Everything else is translated directly from the Rust
sources.  DMA byte-level bounds (the `DmaStreamSlice` slice lengths and
`write_val`/`read_val` bound checks) are modelled separately by `write_val_ok`
together with the wire sizes of each message type; the transaction functions
model the control flow of `device.rs` with the DMA value transfer abstracted
to explicit value passing.
-/

namespace VirtioGPU

/-- Modelled from the spec: `header.rs` is not among the provided sources.
Per §3 the control header is the common prefix of every request/response and
holds the opcode (`ctrl_type`), flags, and correlation fields; the layout
matching `REQ_SIZE = 16` in `device.rs` is opcode (u32), flags (u32),
fence id (u64). -/
structure VirtioGPUCtrlHdr where
  ctrl_type : Nat
  flags : Nat
  fence_id : Nat
deriving Repr, DecidableEq

/-- Modelled from the spec: the enumerated opcode set of `header.rs`
(`VirtioGPUCtrlType`), restricted to the variants `device.rs` and `cursor.rs`
use; numeric values are the ones fixed by the external virtio-gpu device
protocol (§6: "numeric opcodes ... fixed by the hypervisor/device spec"). -/
inductive VirtioGPUCtrlType where
  | VIRTIO_GPU_CMD_GET_DISPLAY_INFO
  | VIRTIO_GPU_CMD_UPDATE_CURSOR
  | VIRTIO_GPU_CMD_MOVE_CURSOR
  | VIRTIO_GPU_RESP_OK_NODATA
  | VIRTIO_GPU_RESP_OK_DISPLAY_INFO
deriving Repr, DecidableEq

/-- Modelled from the spec: the numeric value of each opcode (the `as u32`
casts in `device.rs`), fixed by the external device protocol. -/
def VirtioGPUCtrlType.code : VirtioGPUCtrlType → Nat
  | .VIRTIO_GPU_CMD_GET_DISPLAY_INFO => 0x0100
  | .VIRTIO_GPU_CMD_UPDATE_CURSOR => 0x0300
  | .VIRTIO_GPU_CMD_MOVE_CURSOR => 0x0301
  | .VIRTIO_GPU_RESP_OK_NODATA => 0x1100
  | .VIRTIO_GPU_RESP_OK_DISPLAY_INFO => 0x1101

/-- Modelled from the spec: `VirtioGPUCtrlHdr::default()` — an all-zero
header (Rust `Default` derives zero for all numeric fields). -/
def VirtioGPUCtrlHdr.default : VirtioGPUCtrlHdr :=
  { ctrl_type := 0, flags := 0, fence_id := 0 }

/-- Modelled from the spec: `VirtioGPUCtrlHdr::from_type(t)` of `header.rs` —
per §4.1 construction helpers set the header opcode and zero all reserved
fields. -/
def VirtioGPUCtrlHdr.from_type (t : VirtioGPUCtrlType) : VirtioGPUCtrlHdr :=
  { ctrl_type := t.code, flags := 0, fence_id := 0 }

/-- `VirtioGPUCursorPos` from `cursor.rs`: scanout index, coordinates and a
reserved padding word. -/
structure VirtioGPUCursorPos where
  scanout_id : Nat
  x : Nat
  y : Nat
  padding : Nat
deriving Repr, DecidableEq

/-- `VirtioGPUCursorPos::default()`: the derived Rust `Default`, all fields
zero. -/
def VirtioGPUCursorPos.default : VirtioGPUCursorPos :=
  { scanout_id := 0, x := 0, y := 0, padding := 0 }

/-- `VirtioGPUUpdateCursor` from `cursor.rs`: the shared physical layout of
the update-cursor and move-cursor commands. -/
structure VirtioGPUUpdateCursor where
  hdr : VirtioGPUCtrlHdr
  pos : VirtioGPUCursorPos
  resource_id : Nat
  hot_x : Nat
  hot_y : Nat
  padding : Nat
deriving Repr, DecidableEq

/-- `VirtioGPUUpdateCursor::update_cursor` from `cursor.rs`: opcode
`VIRTIO_GPU_CMD_UPDATE_CURSOR`, hotspot zeroed, caller-supplied position,
resource id and padding. -/
def VirtioGPUUpdateCursor.update_cursor (pos : VirtioGPUCursorPos)
    (resource_id : Nat) (padding : Nat) : VirtioGPUUpdateCursor :=
  { hdr := VirtioGPUCtrlHdr.from_type .VIRTIO_GPU_CMD_UPDATE_CURSOR
    pos := pos
    resource_id := resource_id
    hot_x := 0
    hot_y := 0
    padding := padding }

/-- `VirtioGPUUpdateCursor::move_cursor` from `cursor.rs`: opcode
`VIRTIO_GPU_CMD_MOVE_CURSOR`, default (all-zero) position, resource id zero,
caller-supplied hotspot and padding. -/
def VirtioGPUUpdateCursor.move_cursor (hot_x hot_y padding : Nat) :
    VirtioGPUUpdateCursor :=
  { hdr := VirtioGPUCtrlHdr.from_type .VIRTIO_GPU_CMD_MOVE_CURSOR
    pos := VirtioGPUCursorPos.default
    resource_id := 0
    hot_x := hot_x
    hot_y := hot_y
    padding := padding }

/-- `VirtioGPURespUpdateCursor` from `cursor.rs`: header-only no-data
response. -/
structure VirtioGPURespUpdateCursor where
  hdr : VirtioGPUCtrlHdr
deriving Repr, DecidableEq

/-- `VirtioGPURespUpdateCursor::new()` from `cursor.rs`: a response whose
header opcode is `VIRTIO_GPU_RESP_OK_NODATA`. -/
def VirtioGPURespUpdateCursor.new : VirtioGPURespUpdateCursor :=
  { hdr := VirtioGPUCtrlHdr.from_type .VIRTIO_GPU_RESP_OK_NODATA }

/-- `VirtioGPURespUpdateCursor::header()` from `cursor.rs`. -/
def VirtioGPURespUpdateCursor.header (r : VirtioGPURespUpdateCursor) :
    VirtioGPUCtrlHdr := r.hdr

/-- Modelled from the spec: one scanout's geometry record inside the
display-info response (`control.rs` is not among the provided sources); per
the external device protocol a display record is a rectangle plus enabled and
flags words. -/
structure VirtioGPUDisplayOne where
  r_x : Nat
  r_y : Nat
  r_width : Nat
  r_height : Nat
  enabled : Nat
  flags : Nat
deriving Repr, DecidableEq

/-- Modelled from the spec: `VirtioGPURespDisplayInfo` from `control.rs` —
per §3 a display-info response is "header + device-specific geometry
payload"; the device protocol fixes 16 scanout records. -/
structure VirtioGPURespDisplayInfo where
  hdr : VirtioGPUCtrlHdr
  pmodes : List VirtioGPUDisplayOne
deriving Repr, DecidableEq

/-- Modelled from the spec: `VirtioGPURespDisplayInfo::default()` — the
derived Rust `Default`, i.e. an all-zero header and 16 all-zero scanout
records. -/
def VirtioGPURespDisplayInfo.default : VirtioGPURespDisplayInfo :=
  { hdr := VirtioGPUCtrlHdr.default
    pmodes := List.replicate 16 ⟨0, 0, 0, 0, 0, 0⟩ }

/-- Modelled from the spec: `VirtioGPURespDisplayInfo::header()`, the header
accessor used by the opcode validation in `device.rs`. -/
def VirtioGPURespDisplayInfo.header (r : VirtioGPURespDisplayInfo) :
    VirtioGPUCtrlHdr := r.hdr

/-- Modelled from the spec: the crate-level `VirtioDeviceError`; the only
variant this module produces is `QueueUnknownError` (the protocol-level
error of §7). -/
inductive VirtioDeviceError where
  | QueueUnknownError
deriving Repr, DecidableEq

/-- `REQ_SIZE` from `device.rs`: the byte length of every request
`DmaStreamSlice`. -/
def REQ_SIZE : Nat := 16

/-- `RESP_SIZE` from `device.rs`: the byte length of every response
`DmaStreamSlice`. -/
def RESP_SIZE : Nat := 1

/-- The bound check of `DmaStreamSlice::write_val`/`read_val` (ostd `VmIo`):
writing or reading a value of `val_size` bytes at `offset` into a slice of
`slice_len` bytes succeeds exactly when it stays within the slice. -/
def write_val_ok (slice_len offset val_size : Nat) : Bool :=
  offset + val_size ≤ slice_len

/-- Wire size in bytes of the modelled control header (u32 + u32 + u64). -/
def size_of_ctrl_hdr : Nat := 4 + 4 + 8

/-- Wire size in bytes of one scanout record (rectangle 4×u32, enabled,
flags). -/
def size_of_display_one : Nat := 4 * 4 + 4 + 4

/-- Wire size in bytes of `VirtioGPURespDisplayInfo`: header plus 16 scanout
records. -/
def size_of_resp_display_info : Nat := size_of_ctrl_hdr + 16 * size_of_display_one

/-- Wire size in bytes of `VirtioGPURespUpdateCursor`: header only. -/
def size_of_resp_update_cursor : Nat := size_of_ctrl_hdr

/-- Wire size in bytes of `VirtioGPUUpdateCursor`: header, position, resource
id, hotspot x/y, padding. -/
def size_of_update_cursor : Nat := size_of_ctrl_hdr + 4 * 4 + 4 + 4 + 4 + 4

/-- The observable behavior of the external queue engine and device during
one transaction of `device.rs`: whether `add_dma_buf` succeeds, what the
device writes into the response region before completion (`none` = the
device never writes it), and whether `pop_used` succeeds.  The busy-spin
wait on `can_pop` is assumed to terminate (liveness is out of scope). -/
structure DeviceBehavior (ρ : Type) where
  add_ok : Bool
  dev_write : Option ρ
  pop_ok : Bool

/-- Outcome of an operation of `device.rs`: a returned success value, a
returned `Result` error, or an abort of the calling context — the model of a
Rust `unwrap()`/`expect()` panic, which returns nothing to the caller. -/
inductive Outcome (α : Type) where
  | ok (value : α)
  | err (e : VirtioDeviceError)
  | aborted
deriving Repr, DecidableEq

/-- `true` exactly on a success result. -/
def Outcome.isOk {α : Type} : Outcome α → Bool
  | .ok _ => true
  | _ => false

/-- The common transaction sequence of `request_display_info`,
`request_cursor_update` and `request_cursor_move` in `device.rs`, after the
request and the `placeholder` response value have been staged in the DMA
regions (byte-level slice bounds are modelled separately by `write_val_ok`):
`add_dma_buf` (its failure hits `.expect`, aborting), notify if needed, spin
until `can_pop`, `pop_used` (failure hits `.expect`, aborting), read the
response region back — the device's write if it made one, otherwise the
stale placeholder — and accept it exactly when its header opcode equals
`expected`. -/
def run_transaction {ρ : Type} (placeholder : ρ) (expected : Nat)
    (hdrOf : ρ → VirtioGPUCtrlHdr) (beh : DeviceBehavior ρ) : Outcome ρ :=
  if beh.add_ok = false then .aborted
  else if beh.pop_ok = false then .aborted
  else
    let resp := beh.dev_write.getD placeholder
    if (hdrOf resp).ctrl_type = expected then .ok resp
    else .err VirtioDeviceError.QueueUnknownError

namespace GPUDevice

/-- The request header staged by `request_display_info` (`device.rs`
133–143): opcode `VIRTIO_GPU_CMD_GET_DISPLAY_INFO`, remaining fields from
`VirtioGPUCtrlHdr::default()`. -/
def display_info_request : VirtioGPUCtrlHdr :=
  { VirtioGPUCtrlHdr.default with
    ctrl_type := VirtioGPUCtrlType.VIRTIO_GPU_CMD_GET_DISPLAY_INFO.code }

/-- `GPUDevice::request_display_info` (`device.rs` 133–173): placeholder
`VirtioGPURespDisplayInfo::default()`, expected success opcode
`VIRTIO_GPU_RESP_OK_DISPLAY_INFO`, over the control queue. -/
def request_display_info (beh : DeviceBehavior VirtioGPURespDisplayInfo) :
    Outcome VirtioGPURespDisplayInfo :=
  run_transaction VirtioGPURespDisplayInfo.default
    VirtioGPUCtrlType.VIRTIO_GPU_RESP_OK_DISPLAY_INFO.code
    VirtioGPURespDisplayInfo.header beh

/-- `GPUDevice::request_cursor_update` (`device.rs` 177–218): stages
`VirtioGPUUpdateCursor::update_cursor(pos, resource_id, padding)` as the
request, placeholder `VirtioGPURespUpdateCursor::new()`, expected success
opcode `VIRTIO_GPU_RESP_OK_NODATA`, over the cursor queue. -/
def request_cursor_update (pos : VirtioGPUCursorPos)
    (resource_id padding : Nat)
    (beh : DeviceBehavior VirtioGPURespUpdateCursor) :
    Outcome VirtioGPURespUpdateCursor :=
  let _req := VirtioGPUUpdateCursor.update_cursor pos resource_id padding
  run_transaction VirtioGPURespUpdateCursor.new
    VirtioGPUCtrlType.VIRTIO_GPU_RESP_OK_NODATA.code
    VirtioGPURespUpdateCursor.header beh

/-- `GPUDevice::request_cursor_move` (`device.rs` 222–264): stages
`VirtioGPUUpdateCursor::move_cursor(hot_x, hot_y, padding)` as the request,
placeholder `VirtioGPURespUpdateCursor::new()`, expected success opcode
`VIRTIO_GPU_RESP_OK_NODATA`, over the cursor queue. -/
def request_cursor_move (hot_x hot_y padding : Nat)
    (beh : DeviceBehavior VirtioGPURespUpdateCursor) :
    Outcome VirtioGPURespUpdateCursor :=
  let _req := VirtioGPUUpdateCursor.move_cursor hot_x hot_y padding
  run_transaction VirtioGPURespUpdateCursor.new
    VirtioGPUCtrlType.VIRTIO_GPU_RESP_OK_NODATA.code
    VirtioGPURespUpdateCursor.header beh

end GPUDevice

/-- The fallible steps of `GPUDevice::init` (`device.rs` 56–121), in program
order: the two `VirtQueue::new(..).unwrap()` calls, the four
allocate-and-map blocks (each `alloc_segment(1).unwrap()` then
`DmaStream::map(..).unwrap()`, collapsed to one flag per region), and the
two callback-registration `.unwrap()` calls. -/
structure InitEnv where
  controlq_new_ok : Bool
  cursorq_new_ok : Bool
  controlq_request_alloc_ok : Bool
  controlq_response_alloc_ok : Bool
  cursorq_request_alloc_ok : Bool
  cursorq_response_alloc_ok : Bool
  register_cfg_ok : Bool
  register_queue_ok : Bool
deriving Repr, DecidableEq

/-- `true` exactly when every fallible step of `GPUDevice::init` succeeds. -/
def InitEnv.all_ok (env : InitEnv) : Bool :=
  env.controlq_new_ok && env.cursorq_new_ok
    && env.controlq_request_alloc_ok && env.controlq_response_alloc_ok
    && env.cursorq_request_alloc_ok && env.cursorq_response_alloc_ok
    && env.register_cfg_ok && env.register_queue_ok

/-- `GPUDevice::init` (`device.rs` 56–121): each fallible step is followed by
`.unwrap()`, so any failure aborts (kernel panic) instead of returning an
error; when every step succeeds the function returns `Ok(())`. -/
def GPUDevice.init (env : InitEnv) : Outcome Unit :=
  if env.controlq_new_ok = false then .aborted
  else if env.cursorq_new_ok = false then .aborted
  else if env.controlq_request_alloc_ok = false then .aborted
  else if env.controlq_response_alloc_ok = false then .aborted
  else if env.cursorq_request_alloc_ok = false then .aborted
  else if env.cursorq_response_alloc_ok = false then .aborted
  else if env.register_cfg_ok = false then .aborted
  else if env.register_queue_ok = false then .aborted
  else .ok ()

/-- Modelled from the spec: `config.rs` is not among the provided sources;
the `bitflags` set `GPUFeatures` holds the virtio-gpu feature bits, of which
the driver names `VIRTIO_GPU_F_VIRGL` (bit 0) and
`VIRTIO_GPU_F_CONTEXT_INIT` (bit 4); the device protocol places EDID,
resource-UUID and resource-blob on bits 1–3. -/
def GPUFeatures.VIRTIO_GPU_F_VIRGL : Nat := 1

/-- Modelled from the spec: feature bit 1 of the `GPUFeatures` set. -/
def GPUFeatures.VIRTIO_GPU_F_EDID : Nat := 2

/-- Modelled from the spec: feature bit 2 of the `GPUFeatures` set. -/
def GPUFeatures.VIRTIO_GPU_F_RESOURCE_UUID : Nat := 4

/-- Modelled from the spec: feature bit 3 of the `GPUFeatures` set. -/
def GPUFeatures.VIRTIO_GPU_F_RESOURCE_BLOB : Nat := 8

/-- Modelled from the spec: feature bit 4 of the `GPUFeatures` set. -/
def GPUFeatures.VIRTIO_GPU_F_CONTEXT_INIT : Nat := 16

/-- The union of all bits of the `GPUFeatures` set (what
`from_bits_truncate` keeps). -/
def GPUFeatures.mask : Nat :=
  GPUFeatures.VIRTIO_GPU_F_VIRGL ||| GPUFeatures.VIRTIO_GPU_F_EDID
    ||| GPUFeatures.VIRTIO_GPU_F_RESOURCE_UUID
    ||| GPUFeatures.VIRTIO_GPU_F_RESOURCE_BLOB
    ||| GPUFeatures.VIRTIO_GPU_F_CONTEXT_INIT

/-- The 64-bit complement used by the `bitflags` `remove` operation (`bits &=
!other.bits` on `u64`). -/
def complement64 (x : Nat) : Nat := (2 ^ 64 - 1) ^^^ x

/-- `GPUDevice::negotiate_features` (`device.rs` 47–54):
`GPUFeatures::from_bits_truncate(features)` (keep only defined bits), then
`remove(VIRTIO_GPU_F_VIRGL)` and `remove(VIRTIO_GPU_F_CONTEXT_INIT)`, then
return the bits. -/
def negotiate_features (features : Nat) : Nat :=
  let f1 := features &&& GPUFeatures.mask
  let f2 := f1 &&& complement64 GPUFeatures.VIRTIO_GPU_F_VIRGL
  let f3 := f2 &&& complement64 GPUFeatures.VIRTIO_GPU_F_CONTEXT_INIT
  f3

/-- `negotiate_features` keeps exactly the input bits inside the constant
mask `{EDID, RESOURCE_UUID, RESOURCE_BLOB}` = 14. -/
theorem negotiate_features_eq (f : Nat) :
    negotiate_features f = f &&& 14 := by
  have hmask : GPUFeatures.mask &&& (complement64 GPUFeatures.VIRTIO_GPU_F_VIRGL
      &&& complement64 GPUFeatures.VIRTIO_GPU_F_CONTEXT_INIT) = 14 := by
    decide
  calc negotiate_features f
      = f &&& (GPUFeatures.mask &&& (complement64 GPUFeatures.VIRTIO_GPU_F_VIRGL
          &&& complement64 GPUFeatures.VIRTIO_GPU_F_CONTEXT_INIT)) := by
        simp only [negotiate_features, Nat.land_assoc]
    _ = f &&& 14 := by rw [hmask]

/-- C4: in `request_display_info` the request-header write into the
`REQ_SIZE`-byte request slice stays in bounds, but the response slice is
`RESP_SIZE = 1` byte while a display-info response is
`size_of_resp_display_info = 400` bytes, so the placeholder write at
`device.rs:147` (and likewise the read-back at `device.rs:166`) is out of
bounds: `write_val` fails and the `.unwrap()` panics on every call — the
error branches behind the unwraps are not unreachable, contrary to the
claim. -/
theorem display_info_response_slice_too_small :
    write_val_ok REQ_SIZE 0 size_of_ctrl_hdr = true
    ∧ write_val_ok RESP_SIZE 0 size_of_resp_display_info = false
    ∧ size_of_resp_display_info = 400 := by
  decide

/-- C5: for every position, resource id and padding,
`VirtioGPUUpdateCursor::update_cursor` produces a message with header opcode
`VIRTIO_GPU_CMD_UPDATE_CURSOR`, zero hotspot, and the given position and
resource id. -/
theorem update_cursor_fields (pos : VirtioGPUCursorPos)
    (resource_id padding : Nat) :
    (VirtioGPUUpdateCursor.update_cursor pos resource_id padding).hdr.ctrl_type
        = VirtioGPUCtrlType.VIRTIO_GPU_CMD_UPDATE_CURSOR.code
    ∧ (VirtioGPUUpdateCursor.update_cursor pos resource_id padding).hot_x = 0
    ∧ (VirtioGPUUpdateCursor.update_cursor pos resource_id padding).hot_y = 0
    ∧ (VirtioGPUUpdateCursor.update_cursor pos resource_id padding).pos = pos
    ∧ (VirtioGPUUpdateCursor.update_cursor pos resource_id padding).resource_id
        = resource_id :=
  ⟨rfl, rfl, rfl, rfl, rfl⟩

/-- C6: for every hotspot and padding, `VirtioGPUUpdateCursor::move_cursor`
produces a message with header opcode `VIRTIO_GPU_CMD_MOVE_CURSOR`, an
all-zero position, a zero resource id, and the given hotspot. -/
theorem move_cursor_fields (hot_x hot_y padding : Nat) :
    (VirtioGPUUpdateCursor.move_cursor hot_x hot_y padding).hdr.ctrl_type
        = VirtioGPUCtrlType.VIRTIO_GPU_CMD_MOVE_CURSOR.code
    ∧ (VirtioGPUUpdateCursor.move_cursor hot_x hot_y padding).pos.scanout_id = 0
    ∧ (VirtioGPUUpdateCursor.move_cursor hot_x hot_y padding).pos.x = 0
    ∧ (VirtioGPUUpdateCursor.move_cursor hot_x hot_y padding).pos.y = 0
    ∧ (VirtioGPUUpdateCursor.move_cursor hot_x hot_y padding).pos.padding = 0
    ∧ (VirtioGPUUpdateCursor.move_cursor hot_x hot_y padding).resource_id = 0
    ∧ (VirtioGPUUpdateCursor.move_cursor hot_x hot_y padding).hot_x = hot_x
    ∧ (VirtioGPUUpdateCursor.move_cursor hot_x hot_y padding).hot_y = hot_y :=
  ⟨rfl, rfl, rfl, rfl, rfl, rfl, rfl, rfl⟩

/-- C7 counterexample: the constructors do not zero every reserved/padding
field — the trailing padding of the produced request equals the
caller-supplied padding argument, and `update_cursor` embeds the
caller-supplied position including its padding field, so at input padding 5
(and position padding 7, move padding 3) the produced message has nonzero
padding, contradicting the claim. -/
theorem padding_not_zeroed :
    (VirtioGPUUpdateCursor.update_cursor ⟨0, 0, 0, 7⟩ 1 5).padding = 5
    ∧ (VirtioGPUUpdateCursor.update_cursor ⟨0, 0, 0, 7⟩ 1 5).pos.padding = 7
    ∧ (VirtioGPUUpdateCursor.move_cursor 0 0 3).padding = 3
    ∧ ¬ (VirtioGPUUpdateCursor.update_cursor ⟨0, 0, 0, 7⟩ 1 5).padding = 0 := by
  decide

/-- C7 amended: the constructors fully initialize every field and zero the
header's reserved fields (flags, fence id) and, for `move_cursor`, the
embedded position; but the trailing padding field of the produced request
equals the caller-supplied padding argument, and `update_cursor`'s embedded
position (including its own padding field) is the caller-supplied position —
these are zero only when the caller passes zeroes. -/
theorem constructors_padding_passthrough (pos : VirtioGPUCursorPos)
    (resource_id padding hot_x hot_y : Nat) :
    (VirtioGPUUpdateCursor.update_cursor pos resource_id padding).padding = padding
    ∧ (VirtioGPUUpdateCursor.update_cursor pos resource_id padding).pos.padding
        = pos.padding
    ∧ (VirtioGPUUpdateCursor.update_cursor pos resource_id padding).hdr.flags = 0
    ∧ (VirtioGPUUpdateCursor.update_cursor pos resource_id padding).hdr.fence_id = 0
    ∧ (VirtioGPUUpdateCursor.move_cursor hot_x hot_y padding).padding = padding
    ∧ (VirtioGPUUpdateCursor.move_cursor hot_x hot_y padding).pos.padding = 0
    ∧ (VirtioGPUUpdateCursor.move_cursor hot_x hot_y padding).hdr.flags = 0
    ∧ (VirtioGPUUpdateCursor.move_cursor hot_x hot_y padding).hdr.fence_id = 0 :=
  ⟨rfl, rfl, rfl, rfl, rfl, rfl, rfl, rfl⟩

/-- C8: `negotiate_features` returns a subset of its input's bits (output
AND input equals output) and clears the `VIRTIO_GPU_F_VIRGL` and
`VIRTIO_GPU_F_CONTEXT_INIT` capability bits regardless of their input
state; as a plain function of one integer it depends only on its input and
mutates no device state. -/
theorem negotiate_features_subset_and_clears (f : Nat) :
    negotiate_features f &&& f = negotiate_features f
    ∧ negotiate_features f &&& GPUFeatures.VIRTIO_GPU_F_VIRGL = 0
    ∧ negotiate_features f &&& GPUFeatures.VIRTIO_GPU_F_CONTEXT_INIT = 0 := by
  rw [negotiate_features_eq]
  refine ⟨?_, ?_, ?_⟩
  · apply Nat.eq_of_testBit_eq
    intro i
    simp only [Nat.testBit_land]
    cases hf : f.testBit i <;> simp
  · rw [Nat.land_assoc]
    have h14 : (14 : Nat) &&& GPUFeatures.VIRTIO_GPU_F_VIRGL = 0 := by decide
    rw [h14]
    simp
  · rw [Nat.land_assoc]
    have h14 : (14 : Nat) &&& GPUFeatures.VIRTIO_GPU_F_CONTEXT_INIT = 0 := by decide
    rw [h14]
    simp

/-- C10: `negotiate_features` is idempotent, and its output lies within the
driver's defined `GPUFeatures` bit set (output AND mask equals output), so
every input bit outside that set is cleared as well, not only the two named
capability bits. -/
theorem negotiate_features_idempotent_and_bounded (f : Nat) :
    negotiate_features (negotiate_features f) = negotiate_features f
    ∧ negotiate_features f &&& GPUFeatures.mask = negotiate_features f := by
  rw [negotiate_features_eq, negotiate_features_eq]
  constructor
  · rw [Nat.land_assoc]
    have h14 : (14 : Nat) &&& 14 = 14 := by decide
    rw [h14]
  · rw [Nat.land_assoc]
    have h14 : (14 : Nat) &&& GPUFeatures.mask = 14 := by decide
    rw [h14]

/-- C1: in each of the three request operations, if the opcode of the
response read back from the response region (the device's write if it made
one, the staged placeholder otherwise) differs from that operation's
expected success opcode, the operation never returns a success result, and
when the transaction completes (submission and pop succeed) it returns the
protocol-level error `QueueUnknownError`; the mismatched response value is
never returned to the caller. -/
theorem mismatched_opcode_never_succeeds
    (b1 : DeviceBehavior VirtioGPURespDisplayInfo)
    (b2 b3 : DeviceBehavior VirtioGPURespUpdateCursor)
    (pos : VirtioGPUCursorPos) (resource_id padding hot_x hot_y : Nat)
    (h1 : (b1.dev_write.getD VirtioGPURespDisplayInfo.default).header.ctrl_type
        ≠ VirtioGPUCtrlType.VIRTIO_GPU_RESP_OK_DISPLAY_INFO.code)
    (h2 : (b2.dev_write.getD VirtioGPURespUpdateCursor.new).header.ctrl_type
        ≠ VirtioGPUCtrlType.VIRTIO_GPU_RESP_OK_NODATA.code)
    (h3 : (b3.dev_write.getD VirtioGPURespUpdateCursor.new).header.ctrl_type
        ≠ VirtioGPUCtrlType.VIRTIO_GPU_RESP_OK_NODATA.code) :
    (GPUDevice.request_display_info b1).isOk = false
    ∧ (b1.add_ok = true → b1.pop_ok = true →
        GPUDevice.request_display_info b1 = .err .QueueUnknownError)
    ∧ (GPUDevice.request_cursor_update pos resource_id padding b2).isOk = false
    ∧ (b2.add_ok = true → b2.pop_ok = true →
        GPUDevice.request_cursor_update pos resource_id padding b2
          = .err .QueueUnknownError)
    ∧ (GPUDevice.request_cursor_move hot_x hot_y padding b3).isOk = false
    ∧ (b3.add_ok = true → b3.pop_ok = true →
        GPUDevice.request_cursor_move hot_x hot_y padding b3
          = .err .QueueUnknownError) := by
  unfold GPUDevice.request_display_info GPUDevice.request_cursor_update
    GPUDevice.request_cursor_move run_transaction
  refine ⟨?_, ?_, ?_, ?_, ?_, ?_⟩
  · rcases ha : b1.add_ok <;> rcases hp : b1.pop_ok <;>
      simp [ha, hp, h1, Outcome.isOk]
  · intro ha hp
    simp [ha, hp, h1]
  · rcases ha : b2.add_ok <;> rcases hp : b2.pop_ok <;>
      simp [ha, hp, h2, Outcome.isOk]
  · intro ha hp
    simp [ha, hp, h2]
  · rcases ha : b3.add_ok <;> rcases hp : b3.pop_ok <;>
      simp [ha, hp, h3, Outcome.isOk]
  · intro ha hp
    simp [ha, hp, h3]

/-- C1 witness: a concrete completing transaction on each operation whose
device-written response carries opcode 0 (mismatched on all three) yields
the protocol error and no success. -/
theorem mismatched_opcode_never_succeeds_witness :
    (GPUDevice.request_display_info
        ⟨true, some ⟨⟨0, 0, 0⟩, []⟩, true⟩).isOk = false
    ∧ GPUDevice.request_display_info ⟨true, some ⟨⟨0, 0, 0⟩, []⟩, true⟩
        = .err .QueueUnknownError
    ∧ GPUDevice.request_cursor_update ⟨0, 0, 0, 0⟩ 0 0
        ⟨true, some ⟨⟨0, 0, 0⟩⟩, true⟩ = .err .QueueUnknownError
    ∧ GPUDevice.request_cursor_move 0 0 0 ⟨true, some ⟨⟨0, 0, 0⟩⟩, true⟩
        = .err .QueueUnknownError := by
  have h := mismatched_opcode_never_succeeds
    ⟨true, some ⟨⟨0, 0, 0⟩, []⟩, true⟩
    ⟨true, some ⟨⟨0, 0, 0⟩⟩, true⟩ ⟨true, some ⟨⟨0, 0, 0⟩⟩, true⟩
    ⟨0, 0, 0, 0⟩ 0 0 0 0 (by decide) (by decide) (by decide)
  exact ⟨h.1, h.2.1 rfl rfl, h.2.2.2.1 rfl rfl, h.2.2.2.2.2 rfl rfl⟩

/-- C2 counterexample: the placeholder staged into the response region by
the cursor operations is `VirtioGPURespUpdateCursor::new()`, whose header
opcode is `VIRTIO_GPU_RESP_OK_NODATA` — the expected success opcode, not a
zero/default value — so in a transaction in which the device never writes
the response region, `request_cursor_move` returns the stale placeholder as
a success, contradicting the claim. -/
theorem cursor_placeholder_is_success_opcode :
    VirtioGPURespUpdateCursor.new.header.ctrl_type
        = VirtioGPUCtrlType.VIRTIO_GPU_RESP_OK_NODATA.code
    ∧ ¬ VirtioGPURespUpdateCursor.new.header.ctrl_type = 0
    ∧ GPUDevice.request_cursor_move 0 0 0 ⟨true, none, true⟩
        = .ok VirtioGPURespUpdateCursor.new := by
  decide

/-- C2 amended: `request_display_info` stages the zero/default display-info
placeholder, whose opcode (0) differs from the expected success opcode, so
if the device never writes the response region the stale placeholder fails
validation and the operation returns the protocol error; but the two cursor
operations stage `VirtioGPURespUpdateCursor::new()`, whose opcode is exactly
the expected success opcode `VIRTIO_GPU_RESP_OK_NODATA`, so if the device
never writes the response region the stale placeholder passes validation
and is returned as a success. -/
theorem stale_placeholder_validation
    (b1 : DeviceBehavior VirtioGPURespDisplayInfo)
    (b : DeviceBehavior VirtioGPURespUpdateCursor)
    (pos : VirtioGPUCursorPos) (resource_id padding hot_x hot_y : Nat) :
    (b1.dev_write = none → b1.add_ok = true → b1.pop_ok = true →
        GPUDevice.request_display_info b1 = .err .QueueUnknownError)
    ∧ (b.dev_write = none → b.add_ok = true → b.pop_ok = true →
        GPUDevice.request_cursor_update pos resource_id padding b
            = .ok VirtioGPURespUpdateCursor.new
        ∧ GPUDevice.request_cursor_move hot_x hot_y padding b
            = .ok VirtioGPURespUpdateCursor.new) := by
  unfold GPUDevice.request_display_info GPUDevice.request_cursor_update
    GPUDevice.request_cursor_move run_transaction
  constructor
  · intro hw ha hp
    simp [hw, ha, hp]
    decide
  · intro hw ha hp
    constructor <;> simp [hw, ha, hp] <;> decide

/-- C2 amended witness: concrete completing transactions in which the
device never writes the response region — the display-info query fails with
the protocol error, both cursor operations succeed on the stale
placeholder. -/
theorem stale_placeholder_validation_witness :
    GPUDevice.request_display_info ⟨true, none, true⟩
        = .err .QueueUnknownError
    ∧ GPUDevice.request_cursor_update ⟨1, 2, 3, 0⟩ 5 0 ⟨true, none, true⟩
        = .ok VirtioGPURespUpdateCursor.new
    ∧ GPUDevice.request_cursor_move 10 20 0 ⟨true, none, true⟩
        = .ok VirtioGPURespUpdateCursor.new := by
  have h := stale_placeholder_validation ⟨true, none, true⟩ ⟨true, none, true⟩
    ⟨1, 2, 3, 0⟩ 5 0 10 20
  refine ⟨h.1 rfl rfl rfl, (h.2 rfl rfl rfl).1, (h.2 rfl rfl rfl).2⟩

/-- C3 counterexample: a failed queue submission in `request_display_info`
and a failed queue construction in `GPUDevice::init` both abort (the
`.expect`/`.unwrap` panic), returning neither a success nor an explicit
`Result` error to the caller, contradicting the claim that every such
failure is surfaced as an explicit failure result. -/
theorem queue_and_init_failures_abort :
    GPUDevice.request_display_info ⟨false, none, true⟩ = .aborted
    ∧ GPUDevice.init ⟨false, true, true, true, true, true, true, true⟩
        = .aborted := by
  decide

/-- C3 amended: queue submission failure and pop failure in the request
operations, and any queue-construction, allocation/DMA-mapping or
callback-registration failure in `GPUDevice::init`, abort the calling
context via `unwrap`/`expect` (kernel panic) instead of being returned as an
explicit `Result` error; `init` returns `Ok(())` exactly when every fallible
step succeeds, and the only explicit `Result` error the request operations
return is the protocol (opcode-mismatch) error. -/
theorem failures_abort_instead_of_error (env : InitEnv)
    (b : DeviceBehavior VirtioGPURespDisplayInfo) :
    (env.all_ok = false → GPUDevice.init env = .aborted)
    ∧ (env.all_ok = true → GPUDevice.init env = .ok ())
    ∧ (b.add_ok = false → GPUDevice.request_display_info b = .aborted)
    ∧ (b.pop_ok = false → GPUDevice.request_display_info b = .aborted) := by
  obtain ⟨e1, e2, e3, e4, e5, e6, e7, e8⟩ := env
  refine ⟨?_, ?_, ?_, ?_⟩
  · revert e1 e2 e3 e4 e5 e6 e7 e8
    decide
  · revert e1 e2 e3 e4 e5 e6 e7 e8
    decide
  · intro ha
    unfold GPUDevice.request_display_info run_transaction
    simp [ha]
  · intro hp
    unfold GPUDevice.request_display_info run_transaction
    rcases ha : b.add_ok <;> simp [ha, hp]

/-- C3 amended witness: a concrete failing init environment, a concrete
all-success init environment, and concrete transactions with failed
submission and failed pop. -/
theorem failures_abort_instead_of_error_witness :
    GPUDevice.init ⟨true, false, true, true, true, true, true, true⟩ = .aborted
    ∧ GPUDevice.init ⟨true, true, true, true, true, true, true, true⟩ = .ok ()
    ∧ GPUDevice.request_display_info ⟨false, none, false⟩ = .aborted
    ∧ GPUDevice.request_display_info ⟨true, none, false⟩ = .aborted := by
  have h1 := failures_abort_instead_of_error
    ⟨true, false, true, true, true, true, true, true⟩ ⟨false, none, false⟩
  have h2 := failures_abort_instead_of_error
    ⟨true, true, true, true, true, true, true, true⟩ ⟨true, none, false⟩
  exact ⟨h1.1 rfl, h2.2.1 rfl, h1.2.2.1 rfl, h2.2.2.2 rfl⟩

end VirtioGPU
